import Mathlib

/-!
# Verification of the degen-fund-bot transaction pipeline

Shallow embedding of `src/main.rs`: a single-shot pipeline that loads a
keypair from the environment, fetches a base64-encoded Solana transaction
from a remote endpoint, decodes it, fills the caller's signature slot, and
submits it, reporting the resulting identifier with a Solscan URL.

Bytes are modelled as `Nat` (well-formedness predicates bound them below
256 where the Rust type is `u8`).  External library behaviour (bincode /
solana-sdk wire format, the base64 crate's STANDARD engine, ed25519
signing) is modelled explicitly and named as such; the control flow and
branching of `main.rs` is translated directly.
-/

namespace DegenBot

/-! ## Data model (solana-sdk `Transaction` as deserialized by bincode) -/

/-- A signature slot: `solana_sdk::signature::Signature`, a 64-byte value.
`Signature::default()` is the all-zero value, representing an empty slot. -/
structure Signature where
  bytes : List Nat
deriving DecidableEq, Repr

/-- `Signature::default()`: 64 zero bytes (the canonical empty slot). -/
def Signature.defaultSig : Signature := ⟨List.replicate 64 0⟩

/-- `solana_sdk::pubkey::Pubkey`: a 32-byte account identifier. -/
structure Pubkey where
  bytes : List Nat
deriving DecidableEq, Repr

/-- `solana_sdk::hash::Hash`: the 32-byte recent blockhash (recency token). -/
structure Hash where
  bytes : List Nat
deriving DecidableEq, Repr

/-- `solana_sdk::message::MessageHeader`: three `u8` counters. -/
structure MessageHeader where
  num_required_signatures : Nat
  num_readonly_signed_accounts : Nat
  num_readonly_unsigned_accounts : Nat
deriving DecidableEq, Repr

/-- `solana_sdk::instruction::CompiledInstruction`. -/
structure CompiledInstruction where
  program_id_index : Nat
  accounts : List Nat
  dataBytes : List Nat
deriving DecidableEq, Repr

/-- `solana_sdk::message::Message`: header, ordered account list,
recency token and compiled instructions. -/
structure Message where
  header : MessageHeader
  account_keys : List Pubkey
  recent_blockhash : Hash
  instructions : List CompiledInstruction
deriving DecidableEq, Repr

/-- `solana_sdk::transaction::Transaction`: a parallel signature array
plus the message. -/
structure Transaction where
  signatures : List Signature
  message : Message
deriving DecidableEq, Repr

/-! ## `Iterator::position` (main.rs line 92-96)

`tx.message.account_keys.iter().position(|&pubkey| pubkey == our_pubkey)`
returns the index of the FIRST element equal to the target. -/

/-- Embedding of Rust `Iterator::position` specialised to an equality
predicate: index of the first occurrence of `target`, if any. -/
def position? {α : Type} [DecidableEq α] (target : α) : List α → Option Nat
  | [] => none
  | a :: as => if a = target then some 0 else (position? target as).map (· + 1)

theorem position?_eq_none {α : Type} [DecidableEq α] (target : α) :
    ∀ l : List α, target ∉ l → position? target l = none := by
  intro l
  induction l with
  | nil => intro _; rfl
  | cons a as ih =>
    intro h
    have ha : a ≠ target := fun he => h (he ▸ List.mem_cons_self a as)
    have has : target ∉ as := fun hm => h (List.mem_cons_of_mem a hm)
    simp [position?, ha, ih has]

theorem position?_mem {α : Type} [DecidableEq α] (target : α) :
    ∀ (l : List α) (i : Nat), position? target l = some i →
      l.get? i = some target := by
  intro l
  induction l with
  | nil => intro i h; simp [position?] at h
  | cons a as ih =>
    intro i h
    by_cases ha : a = target
    · simp [position?, ha] at h
      subst h; simp [ha]
    · simp [position?, ha] at h
      obtain ⟨j, hj, hij⟩ := h
      subst hij
      simpa using ih j hj

theorem position?_first {α : Type} [DecidableEq α] (target : α) :
    ∀ (l : List α) (i : Nat), position? target l = some i →
      ∀ j, j < i → l.get? j ≠ some target := by
  intro l
  induction l with
  | nil => intro i h; simp [position?] at h
  | cons a as ih =>
    intro i h j hj
    by_cases ha : a = target
    · simp [position?, ha] at h
      omega
    · simp [position?, ha] at h
      obtain ⟨k, hk, hik⟩ := h
      subst hik
      cases j with
      | zero => simpa using ha
      | succ j' => simpa using ih k hk j' (by omega)

/-! ## Wire format primitives

Modelled from the bincode/solana-sdk wire format used by
`bincode::deserialize::<Transaction>` (main.rs line 88): vectors are
length-prefixed with solana's compact-u16 (`short_vec`) encoding,
fixed-size byte arrays are written raw, `u8` fields are single bytes. -/

/-- Solana `ShortU16` serialisation: little-endian base-128 with a
continuation bit, at most three bytes for values below `2^16`. -/
def encodeShortU16 (n : Nat) : List Nat :=
  if n < 0x80 then [n]
  else if n < 0x4000 then [n % 0x80 + 0x80, n / 0x80]
  else [n % 0x80 + 0x80, (n / 0x80) % 0x80 + 0x80, n / 0x4000]

/-- Solana `ShortU16` deserialisation: reads up to three bytes, rejecting
aliased (non-minimal) encodings and values overflowing `u16`.  Returns the
decoded length and the remaining input. -/
def decodeShortU16 : List Nat → Option (Nat × List Nat)
  | [] => none
  | b0 :: r0 =>
    if b0 < 0x80 then some (b0, r0)
    else
      match r0 with
      | [] => none
      | b1 :: r1 =>
        if b1 < 0x80 then
          if b1 = 0 then none
          else some (b0 % 0x80 + b1 * 0x80, r1)
        else
          match r1 with
          | [] => none
          | b2 :: r2 =>
            if b2 = 0 ∨ 3 < b2 then none
            else some (b0 % 0x80 + b1 % 0x80 * 0x80 + b2 * 0x4000, r2)

theorem decodeShortU16_encode (n : Nat) (hn : n < 0x10000) (rest : List Nat) :
    decodeShortU16 (encodeShortU16 n ++ rest) = some (n, rest) := by
  unfold encodeShortU16 decodeShortU16
  by_cases h1 : n < 0x80
  · simp [h1]
  · by_cases h2 : n < 0x4000
    · have hb0 : ¬ n % 0x80 + 0x80 < 0x80 := by omega
      have hb1lt : n / 0x80 < 0x80 := by omega
      have hb1ne : ¬ n / 0x80 = 0 := by omega
      simp only [h1, if_false, h2, if_true, List.cons_append, List.nil_append]
      simp only [decodeShortU16, hb0, if_false, hb1lt, if_true, hb1ne]
      congr 1
      congr 1
      omega
    · have hb0 : ¬ n % 0x80 + 0x80 < 0x80 := by omega
      have hb1 : ¬ (n / 0x80) % 0x80 + 0x80 < 0x80 := by omega
      have hb2 : ¬ (n / 0x4000 = 0 ∨ 3 < n / 0x4000) := by omega
      simp only [h1, if_false, h2, if_false, List.cons_append, List.nil_append]
      simp only [decodeShortU16, hb0, if_false, hb1, hb2]
      congr 1
      congr 1
      omega

/-- Read a single byte from the input. -/
def readByte : List Nat → Option (Nat × List Nat)
  | [] => none
  | b :: r => some (b, r)

/-- Read exactly `k` bytes from the input. -/
def readBytes : Nat → List Nat → Option (List Nat × List Nat)
  | 0, bs => some ([], bs)
  | _ + 1, [] => none
  | k + 1, b :: bs => (readBytes k bs).map (fun p => (b :: p.1, p.2))

theorem readBytes_append (xs : List Nat) (rest : List Nat) :
    readBytes xs.length (xs ++ rest) = some (xs, rest) := by
  induction xs with
  | nil => rfl
  | cons b bs ih => simp [readBytes, ih]

theorem readByte_cons (b : Nat) (rest : List Nat) :
    readByte (b :: rest) = some (b, rest) := rfl

/-- Parse `n` consecutive items with an element parser `p`. -/
def parseCount {α : Type} (p : List Nat → Option (α × List Nat)) :
    Nat → List Nat → Option (List α × List Nat)
  | 0, bs => some ([], bs)
  | k + 1, bs =>
    match p bs with
    | none => none
    | some (a, bs') =>
      match parseCount p k bs' with
      | none => none
      | some (as, bs'') => some (a :: as, bs'')

/-- Serialise a vector in solana `short_vec` form: compact-u16 length
prefix followed by the serialised elements in order. -/
def serializeShortVec {α : Type} (f : α → List Nat) (v : List α) : List Nat :=
  encodeShortU16 v.length ++ v.foldr (fun a acc => f a ++ acc) []

/-- Parse a vector in solana `short_vec` form. -/
def parseShortVec {α : Type} (p : List Nat → Option (α × List Nat))
    (bs : List Nat) : Option (List α × List Nat) :=
  match decodeShortU16 bs with
  | none => none
  | some (n, bs') => parseCount p n bs'

theorem parseCount_foldr {α : Type} (p : List Nat → Option (α × List Nat))
    (f : α → List Nat) (v : List α)
    (hp : ∀ a ∈ v, ∀ r, p (f a ++ r) = some (a, r)) (rest : List Nat) :
    parseCount p v.length (v.foldr (fun a acc => f a ++ acc) [] ++ rest) =
      some (v, rest) := by
  induction v with
  | nil => rfl
  | cons a as ih =>
    have ha := hp a (List.mem_cons_self a as)
    have has : ∀ b ∈ as, ∀ r, p (f b ++ r) = some (b, r) :=
      fun b hb => hp b (List.mem_cons_of_mem a hb)
    simp only [List.foldr_cons, List.length_cons, List.append_assoc]
    simp only [parseCount, ha, ih has]

theorem parseShortVec_serialize {α : Type}
    (p : List Nat → Option (α × List Nat)) (f : α → List Nat) (v : List α)
    (hv : v.length < 0x10000)
    (hp : ∀ a ∈ v, ∀ r, p (f a ++ r) = some (a, r)) (rest : List Nat) :
    parseShortVec p (serializeShortVec f v ++ rest) = some (v, rest) := by
  unfold serializeShortVec parseShortVec
  rw [List.append_assoc, decodeShortU16_encode v.length hv]
  exact parseCount_foldr p f v hp rest

/-! ## The Transaction binary codec

The fixed binary schema of `bincode::deserialize::<Transaction>` on
main.rs line 88: `signatures` as a `short_vec` of 64-byte signatures,
then the message (3 header bytes, `short_vec` of 32-byte account keys,
32-byte recent blockhash, `short_vec` of compiled instructions, each a
`u8` program index and two `short_vec<u8>` fields). -/

def serializeSignature (s : Signature) : List Nat := s.bytes

def serializePubkey (p : Pubkey) : List Nat := p.bytes

def serializeHash (h : Hash) : List Nat := h.bytes

def serializeByte (b : Nat) : List Nat := [b]

def serializeInstruction (ix : CompiledInstruction) : List Nat :=
  [ix.program_id_index]
    ++ serializeShortVec serializeByte ix.accounts
    ++ serializeShortVec serializeByte ix.dataBytes

/-- Serialisation of `Message` — this is also exactly
`Transaction::message_data()` (main.rs line 100): a canonical,
order-preserving serialisation of the message that excludes the
signature array. -/
def serializeMessage (m : Message) : List Nat :=
  [m.header.num_required_signatures,
   m.header.num_readonly_signed_accounts,
   m.header.num_readonly_unsigned_accounts]
    ++ serializeShortVec serializePubkey m.account_keys
    ++ serializeHash m.recent_blockhash
    ++ serializeShortVec serializeInstruction m.instructions

def serializeTransaction (tx : Transaction) : List Nat :=
  serializeShortVec serializeSignature tx.signatures
    ++ serializeMessage tx.message

def parseSignature (bs : List Nat) : Option (Signature × List Nat) :=
  (readBytes 64 bs).map (fun p => (⟨p.1⟩, p.2))

def parsePubkey (bs : List Nat) : Option (Pubkey × List Nat) :=
  (readBytes 32 bs).map (fun p => (⟨p.1⟩, p.2))

def parseHash (bs : List Nat) : Option (Hash × List Nat) :=
  (readBytes 32 bs).map (fun p => (⟨p.1⟩, p.2))

def parseInstruction (bs : List Nat) : Option (CompiledInstruction × List Nat) :=
  match readByte bs with
  | none => none
  | some (idx, bs1) =>
    match parseShortVec readByte bs1 with
    | none => none
    | some (accs, bs2) =>
      match parseShortVec readByte bs2 with
      | none => none
      | some (dat, bs3) => some (⟨idx, accs, dat⟩, bs3)

def parseMessage (bs : List Nat) : Option (Message × List Nat) :=
  match readByte bs with
  | none => none
  | some (h1, bs1) =>
    match readByte bs1 with
    | none => none
    | some (h2, bs2) =>
      match readByte bs2 with
      | none => none
      | some (h3, bs3) =>
        match parseShortVec parsePubkey bs3 with
        | none => none
        | some (keys, bs4) =>
          match parseHash bs4 with
          | none => none
          | some (bh, bs5) =>
            match parseShortVec parseInstruction bs5 with
            | none => none
            | some (ixs, bs6) => some (⟨⟨h1, h2, h3⟩, keys, bh, ixs⟩, bs6)

def parseTransaction (bs : List Nat) : Option (Transaction × List Nat) :=
  match parseShortVec parseSignature bs with
  | none => none
  | some (sigs, bs1) =>
    match parseMessage bs1 with
    | none => none
    | some (m, bs2) => some (⟨sigs, m⟩, bs2)

/-- `bincode::deserialize::<Transaction>` (main.rs line 88): parse a
transaction from the front of the byte stream (bincode's legacy entry
point tolerates trailing bytes). -/
def deserializeTransaction (bs : List Nat) : Option Transaction :=
  (parseTransaction bs).map Prod.fst

/-! ### Well-formedness: what is representable in the Rust types -/

/-- A `u8` value. -/
def wfByte (b : Nat) : Prop := b < 256

def wfSignature (s : Signature) : Prop :=
  s.bytes.length = 64 ∧ ∀ b ∈ s.bytes, wfByte b

def wfPubkey (p : Pubkey) : Prop :=
  p.bytes.length = 32 ∧ ∀ b ∈ p.bytes, wfByte b

def wfHash (h : Hash) : Prop :=
  h.bytes.length = 32 ∧ ∀ b ∈ h.bytes, wfByte b

def wfHeader (h : MessageHeader) : Prop :=
  wfByte h.num_required_signatures ∧
  wfByte h.num_readonly_signed_accounts ∧
  wfByte h.num_readonly_unsigned_accounts

def wfInstruction (ix : CompiledInstruction) : Prop :=
  wfByte ix.program_id_index ∧
  ix.accounts.length < 0x10000 ∧ (∀ b ∈ ix.accounts, wfByte b) ∧
  ix.dataBytes.length < 0x10000 ∧ (∀ b ∈ ix.dataBytes, wfByte b)

def wfMessage (m : Message) : Prop :=
  wfHeader m.header ∧
  m.account_keys.length < 0x10000 ∧ (∀ k ∈ m.account_keys, wfPubkey k) ∧
  wfHash m.recent_blockhash ∧
  m.instructions.length < 0x10000 ∧ (∀ ix ∈ m.instructions, wfInstruction ix)

def wfTransaction (tx : Transaction) : Prop :=
  tx.signatures.length < 0x10000 ∧ (∀ s ∈ tx.signatures, wfSignature s) ∧
  wfMessage tx.message

instance (b : Nat) : Decidable (wfByte b) := by
  unfold wfByte; infer_instance

instance (s : Signature) : Decidable (wfSignature s) := by
  unfold wfSignature; infer_instance

instance (p : Pubkey) : Decidable (wfPubkey p) := by
  unfold wfPubkey; infer_instance

instance (h : Hash) : Decidable (wfHash h) := by
  unfold wfHash; infer_instance

instance (h : MessageHeader) : Decidable (wfHeader h) := by
  unfold wfHeader; infer_instance

instance (ix : CompiledInstruction) : Decidable (wfInstruction ix) := by
  unfold wfInstruction; infer_instance

instance (m : Message) : Decidable (wfMessage m) := by
  unfold wfMessage; infer_instance

instance (tx : Transaction) : Decidable (wfTransaction tx) := by
  unfold wfTransaction; infer_instance

/-! ### Round-trip lemmas -/

theorem parseSignature_serialize (s : Signature) (hs : wfSignature s)
    (rest : List Nat) :
    parseSignature (serializeSignature s ++ rest) = some (s, rest) := by
  unfold parseSignature serializeSignature
  rw [← hs.1, readBytes_append]
  rfl

theorem parsePubkey_serialize (p : Pubkey) (hp : wfPubkey p)
    (rest : List Nat) :
    parsePubkey (serializePubkey p ++ rest) = some (p, rest) := by
  unfold parsePubkey serializePubkey
  rw [← hp.1, readBytes_append]
  rfl

theorem parseHash_serialize (h : Hash) (hh : wfHash h) (rest : List Nat) :
    parseHash (serializeHash h ++ rest) = some (h, rest) := by
  unfold parseHash serializeHash
  rw [← hh.1, readBytes_append]
  rfl

theorem readByte_serialize (b : Nat) (rest : List Nat) :
    readByte (serializeByte b ++ rest) = some (b, rest) := rfl

theorem parseInstruction_serialize (ix : CompiledInstruction)
    (hix : wfInstruction ix) (rest : List Nat) :
    parseInstruction (serializeInstruction ix ++ rest) = some (ix, rest) := by
  obtain ⟨_, hal, _, hdl, _⟩ := hix
  unfold parseInstruction serializeInstruction
  simp only [List.cons_append, List.nil_append, List.append_assoc, readByte,
    parseShortVec_serialize readByte serializeByte ix.accounts hal
      (fun a _ r => rfl),
    parseShortVec_serialize readByte serializeByte ix.dataBytes hdl
      (fun a _ r => rfl)]

theorem parseMessage_serialize (m : Message) (hm : wfMessage m)
    (rest : List Nat) :
    parseMessage (serializeMessage m ++ rest) = some (m, rest) := by
  obtain ⟨_, hkl, hkw, hbh, hil, hiw⟩ := hm
  unfold parseMessage serializeMessage
  simp only [List.cons_append, List.nil_append, List.append_assoc, readByte,
    parseShortVec_serialize parsePubkey serializePubkey m.account_keys hkl
      (fun k hk r => parsePubkey_serialize k (hkw k hk) r),
    parseHash_serialize m.recent_blockhash hbh,
    parseShortVec_serialize parseInstruction serializeInstruction
      m.instructions hil
      (fun ix hix r => parseInstruction_serialize ix (hiw ix hix) r)]

theorem parseTransaction_serialize (tx : Transaction) (htx : wfTransaction tx)
    (rest : List Nat) :
    parseTransaction (serializeTransaction tx ++ rest) = some (tx, rest) := by
  obtain ⟨hsl, hsw, hmw⟩ := htx
  unfold parseTransaction serializeTransaction
  simp only [List.append_assoc,
    parseShortVec_serialize parseSignature serializeSignature tx.signatures
      hsl (fun s hs r => parseSignature_serialize s (hsw s hs) r),
    parseMessage_serialize tx.message hmw]

/-! ## Base64 (the base64 crate's STANDARD engine, main.rs line 87)

Modelled from the documented behaviour of
`base64::engine::general_purpose::STANDARD.decode`: standard alphabet,
canonical padding required, non-zero trailing bits rejected. -/

/-- Value of one character of the standard base64 alphabet, `none` for any
character outside it. -/
def b64Val (c : Char) : Option Nat :=
  if 'A' ≤ c ∧ c ≤ 'Z' then some (c.toNat - 65)
  else if 'a' ≤ c ∧ c ≤ 'z' then some (c.toNat - 97 + 26)
  else if '0' ≤ c ∧ c ≤ '9' then some (c.toNat - 48 + 52)
  else if c = '+' then some 62
  else if c = '/' then some 63
  else none

/-- `STANDARD.decode` on a text body: processes four characters at a time,
accepting `=`-padding only in the final quantum and only with zero
trailing bits; any other shape (invalid character, length not a multiple
of four, misplaced padding) is a decode error. -/
def base64Decode : List Char → Option (List Nat)
  | [] => some []
  | c0 :: c1 :: c2 :: c3 :: rest =>
    match b64Val c0, b64Val c1 with
    | some v0, some v1 =>
      if c2 = '=' then
        if c3 = '=' ∧ rest = [] ∧ v1 % 16 = 0 then
          some [v0 * 4 + v1 / 16]
        else none
      else
        match b64Val c2 with
        | some v2 =>
          if c3 = '=' then
            if rest = [] ∧ v2 % 4 = 0 then
              some [v0 * 4 + v1 / 16, v1 % 16 * 16 + v2 / 4]
            else none
          else
            match b64Val c3 with
            | some v3 =>
              (base64Decode rest).map
                (fun bs => (v0 * 4 + v1 / 16) :: (v1 % 16 * 16 + v2 / 4) ::
                  (v2 % 4 * 64 + v3) :: bs)
            | none => none
        | none => none
    | _, _ => none
  | _ => none

/-- The standard base64 alphabet, for the encoder. -/
def b64Alphabet : List Char :=
  "ABCDEFGHIJKLMNOPQRSTUVWXYZabcdefghijklmnopqrstuvwxyz0123456789+/".toList

def b64Char (n : Nat) : Char := b64Alphabet.getD n 'A'

/-- `STANDARD.encode`: the inverse direction, used to build concrete
response bodies for end-to-end checks (the codec spec allows an encode
path for round-trip testing). -/
def base64Encode : List Nat → List Char
  | [] => []
  | [b0] => [b64Char (b0 / 4), b64Char (b0 % 4 * 16), '=', '=']
  | [b0, b1] =>
    [b64Char (b0 / 4), b64Char (b0 % 4 * 16 + b1 / 16),
     b64Char (b1 % 16 * 4), '=']
  | b0 :: b1 :: b2 :: rest =>
    b64Char (b0 / 4) :: b64Char (b0 % 4 * 16 + b1 / 16) ::
      b64Char (b1 % 16 * 4 + b2 / 64) :: b64Char (b2 % 64) ::
        base64Encode rest

/-! ## Key material and signing

Modelled from the spec: solana-sdk's `Keypair` (ed25519) is not part of
this repository.  The spec requires a pure, deterministic signing
operation `sign(message_bytes) -> signature_bytes` whose output verifies
against the message bytes and the caller's public identifier under
standard signature verification.  We model perfect signatures: a keypair
is identified by its public key, signing is a fixed deterministic
function of the public key and the message, and a signature verifies
exactly when it is the one the matching key produces on that message. -/

structure Keypair where
  pubkey : Pubkey
deriving DecidableEq, Repr

/-- An injective-enough digest of the key and message, used only to make
the modelled signature bytes depend on both. -/
def sigDigest (pk : Pubkey) (msg : List Nat) : Nat :=
  pk.bytes.foldl (fun a b => a * 257 + b + 1) 7 +
    msg.foldl (fun a b => a * 257 + b + 1) 11

/-- Modelled from the spec: `Keypair::sign_message` (main.rs line 101),
a pure deterministic 64-byte signature over the message. -/
def signMessage (kp : Keypair) (msg : List Nat) : Signature :=
  ⟨(List.range 64).map (fun i => (sigDigest kp.pubkey msg + i + 1) % 256)⟩

/-- Modelled from the spec: standard signature verification — a signature
verifies against `pk` and `msg` exactly when it is the signature the
matching key produces on `msg`. -/
def sigVerify (pk : Pubkey) (msg : List Nat) (sig : Signature) : Bool :=
  decide (sig = signMessage ⟨pk⟩ msg)

/-- `Transaction::message_data()` (main.rs line 100): the serialised
message — excludes the signature array. -/
def messageData (tx : Transaction) : List Nat :=
  serializeMessage tx.message

/-! ## SignatureSlotFiller (main.rs lines 91-109) -/

/-- Outcome of the slot-filling step, distinguishing the four paths of
the Rust `if let` block: signed an empty slot, left a filled slot alone,
returned the `SignerNotFound` error, or hit the out-of-bounds abort of
`tx.signatures[index]` (a Rust index panic, not a returned error). -/
inductive FillStatus where
  | signed
  | alreadySigned
  | signerNotFound
  | indexOutOfBounds
deriving DecidableEq, Repr

/-- Lines 91-109 of main.rs: locate the first account-list position equal
to the caller's public key; if absent, `SignerNotFound`; otherwise read
`tx.signatures[index]` (out of bounds aborts); if it is the default,
sign `message_data` and write the signature into that slot, else do
nothing.  Returns the (possibly updated) transaction and the path taken. -/
def fillSignatureSlot (kp : Keypair) (tx : Transaction) :
    Transaction × FillStatus :=
  match position? kp.pubkey tx.message.account_keys with
  | none => (tx, .signerNotFound)
  | some index =>
    match tx.signatures.get? index with
    | none => (tx, .indexOutOfBounds)
    | some slot =>
      if slot = Signature.defaultSig then
        ({ tx with
            signatures :=
              tx.signatures.set index (signMessage kp (messageData tx)) },
          .signed)
      else (tx, .alreadySigned)

/-! ## Request URL construction (main.rs lines 70-74) -/

/-- Line 70: `format!("https://www.degen.fund/api/antibot/{}", token_to_buy)`.
The endpoint base is the hardcoded literal, not a configured value. -/
def transactionUrl (token_to_buy : String) : String :=
  "https://www.degen.fund/api/antibot/" ++ token_to_buy

/-- Lines 71-74: `format!("{}?&buy-amount={}&buyer={}", transaction_url,
buy_amount, buyer)`. -/
def requestUrl (token_to_buy buy_amount buyer : String) : String :=
  transactionUrl token_to_buy ++ "?&buy-amount=" ++ buy_amount
    ++ "&buyer=" ++ buyer

/-- Following the spec's words, for refinement comparison: the fetch URL
`{endpoint}/api/antibot/{token_id}?&buy-amount={quantity}&buyer={pk}`
with the endpoint base taken from configuration. -/
def requestUrlSpec (endpoint token_id quantity public_identifier : String) :
    String :=
  endpoint ++ "/api/antibot/" ++ token_id ++ "?&buy-amount=" ++ quantity
    ++ "&buyer=" ++ public_identifier

/-- Line 133: `format!("https://solscan.io/tx/{}", signature)`. -/
def solscanUrl (identifier : String) : String :=
  "https://solscan.io/tx/" ++ identifier

/-! ## The orchestrator (fn main, lines 50-139)

The external world — environment variables, the bs58 and keypair
libraries, the HTTP GET and the RPC `send_transaction` — is passed in as
explicit data, so that the strictly sequential control flow of `main` is
a pure function of it. -/

/-- The four environment variables read on lines 50-54; `none` means the
variable is unset, on which `expect` aborts with the given message. -/
structure Env where
  solana_rpc_url : Option String
  private_key_base58 : Option String
  buy_amount : Option String
  token_to_buy : Option String

/-- The failure classes of `main`, in pipeline order.  `configurationError`
carries the `expect` message of the missing variable; `signerNotFound`
carries the error string of line 105; `indexOutOfBounds` is the Rust
index panic of line 99. -/
inductive AppError where
  | configurationError (msg : String)
  | invalidKeyEncoding
  | malformedKeyBytes
  | base64DecodeError
  | deserializationError
  | signerNotFound (msg : String)
  | indexOutOfBounds
deriving DecidableEq, Repr

/-- The success report of lines 128-137: the identifier returned by
`send_transaction` and the Solscan lookup URL built from it. -/
structure Report where
  txid : String
  solscan : String
deriving DecidableEq, Repr

/-- The external collaborators of `main`: base58 decoding and keypair
construction (solana-sdk/bs58 libraries), the HTTP GET of line 86
(returning the response body for a URL), the pubkey display form of
line 59, and the RPC `send_transaction` of line 124 (returning the
identifier for a submitted transaction). -/
structure World where
  bs58Decode : String → Option (List Nat)
  keypairFromBytes : List Nat → Option Keypair
  pubkeyToString : Pubkey → String
  httpGet : String → List Char
  sendTransaction : String → Transaction → String

/-- Lines 86-109 of main.rs: base64-decode the response body,
bincode-deserialize it, and run the signature-slot filler; each failure
propagates immediately and nothing later runs. -/
def processResponse (kp : Keypair) (response : List Char) :
    Except AppError Transaction :=
  match base64Decode response with
  | none => .error .base64DecodeError
  | some byte_tx =>
    match deserializeTransaction byte_tx with
    | none => .error .deserializationError
    | some tx =>
      match fillSignatureSlot kp tx with
      | (_, .signerNotFound) =>
        .error (.signerNotFound "Our public key is not in the list of signers")
      | (_, .indexOutOfBounds) => .error .indexOutOfBounds
      | (tx', _) => .ok tx'

/-- Lines 128-137 of main.rs: the success report built from the
identifier `send_transaction` returned. -/
def reportOf (signature : String) : Report :=
  { txid := signature, solscan := solscanUrl signature }

/-- Lines 50-139 of main.rs: read the four environment variables in
program order (each missing one is a fatal configuration error), decode
the key, build the request URL, fetch, decode and sign, submit, and
report the identifier with its Solscan URL. -/
def runMain (env : Env) (w : World) : Except AppError Report :=
  match env.solana_rpc_url with
  | none => .error (.configurationError "SOLANA_RPC_URL must be set in .env")
  | some rpc_url =>
    match env.private_key_base58 with
    | none =>
      .error (.configurationError "PRIVATE_KEY_BASE58 must be set in .env")
    | some private_key_base58 =>
      match env.buy_amount with
      | none => .error (.configurationError "BUY_AMOUNT must be set in .env")
      | some buy_amount =>
        match env.token_to_buy with
        | none =>
          .error (.configurationError "TOKEN_TO_BUY must be set in .env")
        | some token_to_buy =>
          match w.bs58Decode private_key_base58 with
          | none => .error .invalidKeyEncoding
          | some private_key =>
            match w.keypairFromBytes private_key with
            | none => .error .malformedKeyBytes
            | some keypair =>
              match processResponse keypair
                  (w.httpGet (requestUrl token_to_buy buy_amount
                    (w.pubkeyToString keypair.pubkey))) with
              | .error e => .error e
              | .ok tx => .ok (reportOf (w.sendTransaction rpc_url tx))

/-! ## Concrete fixtures for witnesses -/

def pkA : Pubkey := ⟨List.replicate 32 1⟩

def pkB : Pubkey := ⟨List.replicate 32 2⟩

def kpA : Keypair := ⟨pkA⟩

def bh0 : Hash := ⟨List.replicate 32 3⟩

/-- A filled (non-default) signature slot. -/
def sigFilled : Signature := ⟨7 :: List.replicate 63 0⟩

/-- Account list `[B, A]`, both slots empty (the spec's end-to-end
scenario with caller `A` at index 1). -/
def txW : Transaction :=
  ⟨[Signature.defaultSig, Signature.defaultSig],
   ⟨⟨2, 0, 0⟩, [pkB, pkA], bh0, [⟨0, [1], [9, 9]⟩]⟩⟩

/-- Account list `[B]` only: the caller `A` is absent. -/
def txNoA : Transaction :=
  ⟨[Signature.defaultSig], ⟨⟨1, 0, 0⟩, [pkB], bh0, []⟩⟩

/-- Account list `[A, B]`, slot 0 already filled. -/
def txSigned : Transaction :=
  ⟨[sigFilled, Signature.defaultSig], ⟨⟨2, 0, 0⟩, [pkA, pkB], bh0, []⟩⟩

/-- Account list `[B, A, A]` with a duplicate of the caller's key. -/
def txDup : Transaction :=
  ⟨[Signature.defaultSig, Signature.defaultSig, Signature.defaultSig],
   ⟨⟨3, 0, 0⟩, [pkB, pkA, pkA], bh0, []⟩⟩

/-- Account list `[B, A]` but only ONE signature slot: the caller's
first match (index 1) lies beyond the signature array. -/
def txOob : Transaction :=
  ⟨[Signature.defaultSig], ⟨⟨1, 0, 0⟩, [pkB, pkA], bh0, []⟩⟩

/-! ### Equation lemmas for the four paths of the filler -/

theorem fillSlot_eq_notFound (kp : Keypair) (tx : Transaction)
    (h : position? kp.pubkey tx.message.account_keys = none) :
    fillSignatureSlot kp tx = (tx, .signerNotFound) := by
  unfold fillSignatureSlot
  simp only [h]

theorem fillSlot_eq_oob (kp : Keypair) (tx : Transaction) (i : Nat)
    (h1 : position? kp.pubkey tx.message.account_keys = some i)
    (h2 : tx.signatures.get? i = none) :
    fillSignatureSlot kp tx = (tx, .indexOutOfBounds) := by
  unfold fillSignatureSlot
  simp only [h1, h2]

theorem fillSlot_eq_signed (kp : Keypair) (tx : Transaction) (i : Nat)
    (h1 : position? kp.pubkey tx.message.account_keys = some i)
    (h2 : tx.signatures.get? i = some Signature.defaultSig) :
    fillSignatureSlot kp tx =
      ({ tx with
          signatures :=
            tx.signatures.set i (signMessage kp (messageData tx)) },
        .signed) := by
  unfold fillSignatureSlot
  simp only [h1, h2, if_true]

theorem fillSlot_eq_already (kp : Keypair) (tx : Transaction) (i : Nat)
    (s : Signature)
    (h1 : position? kp.pubkey tx.message.account_keys = some i)
    (h2 : tx.signatures.get? i = some s) (h3 : s ≠ Signature.defaultSig) :
    fillSignatureSlot kp tx = (tx, .alreadySigned) := by
  unfold fillSignatureSlot
  simp only [h1, h2]
  rw [if_neg h3]

/-! ## Claim theorems -/

/-- **C1.** If the caller's public key is absent from the decoded
transaction's account list, the slot-filling step of main.rs lines
92-109 takes the `SignerNotFound` error branch and the transaction is
returned unchanged: no signature slot is mutated. -/
theorem fill_absent_signer_fails (kp : Keypair) (tx : Transaction)
    (h : kp.pubkey ∉ tx.message.account_keys) :
    fillSignatureSlot kp tx = (tx, .signerNotFound) := by
  unfold fillSignatureSlot
  rw [position?_eq_none kp.pubkey tx.message.account_keys h]

/-- Witness for C1 at the concrete transaction `txNoA` (caller absent). -/
theorem fill_absent_signer_fails_witness :
    kpA.pubkey ∉ txNoA.message.account_keys ∧
      fillSignatureSlot kpA txNoA = (txNoA, .signerNotFound) :=
  ⟨by decide, fill_absent_signer_fails kpA txNoA (by decide)⟩

/-- **C2.** If the signature slot at the caller's first matching position
is already filled (not the default value), the filler takes no action:
the signing branch is not entered (status `alreadySigned`) and the
resulting transaction — hence its serialisation — is identical to the
input. -/
theorem fill_already_signed_noop (kp : Keypair) (tx : Transaction)
    (i : Nat) (s : Signature)
    (h1 : position? kp.pubkey tx.message.account_keys = some i)
    (h2 : tx.signatures.get? i = some s)
    (h3 : s ≠ Signature.defaultSig) :
    fillSignatureSlot kp tx = (tx, .alreadySigned) ∧
      serializeTransaction (fillSignatureSlot kp tx).1 =
        serializeTransaction tx := by
  have hmain := fillSlot_eq_already kp tx i s h1 h2 h3
  exact ⟨hmain, by rw [hmain]⟩

/-- Witness for C2 at the concrete transaction `txSigned` (slot 0 of the
caller already holds a non-default signature). -/
theorem fill_already_signed_noop_witness :
    position? kpA.pubkey txSigned.message.account_keys = some 0 ∧
      txSigned.signatures.get? 0 = some sigFilled ∧
      fillSignatureSlot kpA txSigned = (txSigned, .alreadySigned) :=
  ⟨by decide, by decide,
    (fill_already_signed_noop kpA txSigned 0 sigFilled (by decide) (by decide)
      (by decide)).1⟩

/-- **C3.** If the caller's slot is empty (default), the filler signs the
canonical message bytes (`message_data`, which excludes the signature
array) and writes the signature into exactly that slot: the new slot
verifies against the caller's public key, the message is unchanged, and
every other slot is unchanged. -/
theorem fill_empty_slot_signs (kp : Keypair) (tx : Transaction) (i : Nat)
    (h1 : position? kp.pubkey tx.message.account_keys = some i)
    (h2 : tx.signatures.get? i = some Signature.defaultSig) :
    (fillSignatureSlot kp tx).2 = .signed ∧
    (fillSignatureSlot kp tx).1.signatures.get? i =
      some (signMessage kp (messageData tx)) ∧
    sigVerify kp.pubkey (messageData tx) (signMessage kp (messageData tx)) =
      true ∧
    (fillSignatureSlot kp tx).1.message = tx.message ∧
    ∀ j, j ≠ i →
      (fillSignatureSlot kp tx).1.signatures.get? j = tx.signatures.get? j := by
  have hi : i < tx.signatures.length := by
    by_contra hge
    rw [List.get?_eq_none.mpr (by omega)] at h2
    exact Option.noConfusion h2
  have hfill := fillSlot_eq_signed kp tx i h1 h2
  refine ⟨by rw [hfill], ?_, ?_, by rw [hfill], ?_⟩
  · rw [hfill]
    exact List.get?_set_eq_of_lt _ hi
  · simp [sigVerify]
  · intro j hj
    rw [hfill]
    exact List.get?_set_ne _ tx.signatures (fun he => hj he.symm)

/-- Witness for C3 at the concrete transaction `txW` (caller at index 1,
slot empty): the filler signs slot 1 and leaves slot 0 alone. -/
theorem fill_empty_slot_signs_witness :
    position? kpA.pubkey txW.message.account_keys = some 1 ∧
      txW.signatures.get? 1 = some Signature.defaultSig ∧
      (fillSignatureSlot kpA txW).2 = .signed ∧
      (fillSignatureSlot kpA txW).1.signatures.get? 0 =
        txW.signatures.get? 0 :=
  ⟨by decide, by decide,
    (fill_empty_slot_signs kpA txW 1 (by decide) (by decide)).1,
    (fill_empty_slot_signs kpA txW 1 (by decide) (by decide)).2.2.2.2 0
      (by decide)⟩

/-- **C4.** The position lookup of lines 92-96 is first-match: when it
returns index `i`, the account at `i` equals the caller's key, no
earlier account does, and the filler can modify no slot other than `i`
— even when the key occurs again later in the list. -/
theorem fill_first_match_canonical (kp : Keypair) (tx : Transaction)
    (i : Nat) (h : position? kp.pubkey tx.message.account_keys = some i) :
    tx.message.account_keys.get? i = some kp.pubkey ∧
    (∀ j, j < i → tx.message.account_keys.get? j ≠ some kp.pubkey) ∧
    ∀ j, j ≠ i →
      (fillSignatureSlot kp tx).1.signatures.get? j = tx.signatures.get? j := by
  refine ⟨position?_mem kp.pubkey tx.message.account_keys i h,
    position?_first kp.pubkey tx.message.account_keys i h, ?_⟩
  intro j hj
  cases hslot : tx.signatures.get? i with
  | none => rw [fillSlot_eq_oob kp tx i h hslot]
  | some s =>
    by_cases hd : s = Signature.defaultSig
    · subst hd
      rw [fillSlot_eq_signed kp tx i h hslot]
      exact List.get?_set_ne _ tx.signatures (fun he => hj he.symm)
    · rw [fillSlot_eq_already kp tx i s h hslot hd]

/-- Witness for C4 at the concrete transaction `txDup` (caller's key at
indices 1 and 2): the lookup yields 1 and slot 2 stays empty. -/
theorem fill_first_match_canonical_witness :
    position? kpA.pubkey txDup.message.account_keys = some 1 ∧
      txDup.message.account_keys.get? 2 = some kpA.pubkey ∧
      (fillSignatureSlot kpA txDup).1.signatures.get? 2 =
        txDup.signatures.get? 2 :=
  ⟨by decide, by decide,
    (fill_first_match_canonical kpA txDup 1 (by decide)).2.2 2 (by decide)⟩

/-- **C5.** The `tx.signatures[index]` access of line 99 is in bounds
exactly when the caller's first matching index lies within the signature
array: below the length the filler never aborts, while at or beyond the
length it hits the out-of-bounds abort (a panic, not `SignerNotFound`
and not a filled slot), leaving the transaction unchanged. -/
theorem fill_index_bounds (kp : Keypair) (tx : Transaction) (i : Nat)
    (h : position? kp.pubkey tx.message.account_keys = some i) :
    (i < tx.signatures.length →
      (fillSignatureSlot kp tx).2 ≠ .indexOutOfBounds) ∧
    (tx.signatures.length ≤ i →
      fillSignatureSlot kp tx = (tx, .indexOutOfBounds)) := by
  constructor
  · intro hlt
    cases hslot : tx.signatures.get? i with
    | none =>
      have := List.get?_eq_none.mp hslot
      omega
    | some s =>
      by_cases hd : s = Signature.defaultSig
      · subst hd
        rw [fillSlot_eq_signed kp tx i h hslot]
        exact fun hc => FillStatus.noConfusion hc
      · rw [fillSlot_eq_already kp tx i s h hslot hd]
        exact fun hc => FillStatus.noConfusion hc
  · intro hge
    exact fillSlot_eq_oob kp tx i h (List.get?_eq_none.mpr hge)

/-- Witness for C5 at the concrete transaction `txOob` (caller first
matches at index 1, but there is a single signature slot): the filler
aborts out of bounds. -/
theorem fill_index_bounds_witness :
    position? kpA.pubkey txOob.message.account_keys = some 1 ∧
      txOob.signatures.length ≤ 1 ∧
      fillSignatureSlot kpA txOob = (txOob, .indexOutOfBounds) :=
  ⟨by decide, by decide,
    (fill_index_bounds kpA txOob 1 (by decide)).2 (by decide)⟩

/-- **C6.** A response body that is not valid base64 makes the decode
step of main.rs line 87 fail: for every keypair the post-fetch pipeline
stops with `Base64DecodeError` — no transaction is deserialised, no slot
is located, no signature is computed. -/
theorem invalid_base64_stops_pipeline (body : List Char)
    (h : base64Decode body = none) :
    ∀ kp : Keypair, processResponse kp body = .error .base64DecodeError := by
  intro kp
  unfold processResponse
  simp only [h]

/-- Witness for C6 at the concrete body `"!!!!"` (invalid characters). -/
theorem invalid_base64_stops_pipeline_witness :
    base64Decode "!!!!".toList = none ∧
      processResponse kpA "!!!!".toList = .error .base64DecodeError :=
  ⟨by decide, invalid_base64_stops_pipeline "!!!!".toList (by decide) kpA⟩

/-- **C7.** For every well-formed transaction (fields representable in
the Rust types: 64-byte signatures, 32-byte keys and blockhash, `u8`
bytes, vector lengths within `u16`), deserialising its serialisation
through the fixed binary schema yields the transaction back. -/
theorem transaction_codec_roundTrip (tx : Transaction)
    (h : wfTransaction tx) :
    deserializeTransaction (serializeTransaction tx) = some tx := by
  unfold deserializeTransaction
  have := parseTransaction_serialize tx h []
  rw [List.append_nil] at this
  rw [this]
  rfl

/-- Witness for C7 at the concrete transaction `txW`. -/
theorem transaction_codec_roundTrip_witness :
    wfTransaction txW ∧
      deserializeTransaction (serializeTransaction txW) = some txW :=
  ⟨by decide, transaction_codec_roundTrip txW (by decide)⟩

/-- Counterexample for C8 as stated: the code does not build the fetch
URL from a configured endpoint base — with the endpoint configured as
`https://example.com`, the URL the code builds differs from the one the
claim prescribes. -/
theorem requestUrl_ignores_config_endpoint :
    requestUrl "XYZ" "0.1" "BUYER" ≠
      requestUrlSpec "https://example.com" "XYZ" "0.1" "BUYER" := by
  decide

/-- **C8 (amended).** The fetch stage constructs exactly
`{endpoint}/api/antibot/{token_id}?&buy-amount={quantity}&buyer={pk}`
with the endpoint base fixed to the hardcoded literal
`https://www.degen.fund`, not taken from configuration. -/
theorem requestUrl_fixed_endpoint
    (token_id quantity public_identifier : String) :
    requestUrl token_id quantity public_identifier =
      requestUrlSpec "https://www.degen.fund" token_id quantity
        public_identifier := by
  unfold requestUrl transactionUrl requestUrlSpec
  rfl

/-- **C9.** If any of the four environment variables read on lines 50-54
is missing, `main` stops with the corresponding fatal configuration
error, and the outcome is the same whatever every later collaborator
(key decoding, HTTP, RPC) would have done: no pipeline stage runs. -/
theorem missing_env_is_fatal (env : Env) (w w' : World)
    (h : env.solana_rpc_url = none ∨ env.private_key_base58 = none ∨
      env.buy_amount = none ∨ env.token_to_buy = none) :
    (∃ msg, runMain env w = .error (.configurationError msg)) ∧
      runMain env w = runMain env w' := by
  cases h1 : env.solana_rpc_url with
  | none =>
    have hw : runMain env w =
        .error (.configurationError "SOLANA_RPC_URL must be set in .env") := by
      unfold runMain; simp only [h1]
    have hw' : runMain env w' =
        .error (.configurationError "SOLANA_RPC_URL must be set in .env") := by
      unfold runMain; simp only [h1]
    exact ⟨⟨_, hw⟩, hw.trans hw'.symm⟩
  | some a =>
    cases h2 : env.private_key_base58 with
    | none =>
      have hw : runMain env w =
          .error
            (.configurationError "PRIVATE_KEY_BASE58 must be set in .env") := by
        unfold runMain; simp only [h1, h2]
      have hw' : runMain env w' =
          .error
            (.configurationError "PRIVATE_KEY_BASE58 must be set in .env") := by
        unfold runMain; simp only [h1, h2]
      exact ⟨⟨_, hw⟩, hw.trans hw'.symm⟩
    | some b =>
      cases h3 : env.buy_amount with
      | none =>
        have hw : runMain env w =
            .error (.configurationError "BUY_AMOUNT must be set in .env") := by
          unfold runMain; simp only [h1, h2, h3]
        have hw' : runMain env w' =
            .error (.configurationError "BUY_AMOUNT must be set in .env") := by
          unfold runMain; simp only [h1, h2, h3]
        exact ⟨⟨_, hw⟩, hw.trans hw'.symm⟩
      | some c =>
        cases h4 : env.token_to_buy with
        | none =>
          have hw : runMain env w =
              .error
                (.configurationError "TOKEN_TO_BUY must be set in .env") := by
            unfold runMain; simp only [h1, h2, h3, h4]
          have hw' : runMain env w' =
              .error
                (.configurationError "TOKEN_TO_BUY must be set in .env") := by
            unfold runMain; simp only [h1, h2, h3, h4]
          exact ⟨⟨_, hw⟩, hw.trans hw'.symm⟩
        | some d =>
          rw [h1, h2, h3, h4] at h
          rcases h with h | h | h | h <;> exact Option.noConfusion h

/-- An environment with `SOLANA_RPC_URL` unset. -/
def envMissingRpc : Env :=
  ⟨none, some "key58", some "0.1", some "XYZ"⟩

/-- A world whose collaborators all fail or return fixed trivia. -/
def worldA : World :=
  ⟨fun _ => none, fun _ => none, fun _ => "pk", fun _ => [], fun _ _ => "id"⟩

/-- A second, observably different world. -/
def worldB : World :=
  ⟨fun _ => some [1], fun _ => some kpA, fun _ => "pk2", fun _ => ['x'],
    fun _ _ => "id2"⟩

/-- Witness for C9: with `SOLANA_RPC_URL` unset, `main` fails with the
configuration error whatever the rest of the world does. -/
theorem missing_env_is_fatal_witness :
    envMissingRpc.solana_rpc_url = none ∧
      (∃ msg,
        runMain envMissingRpc worldA = .error (.configurationError msg)) ∧
      runMain envMissingRpc worldA = runMain envMissingRpc worldB :=
  ⟨rfl,
    (missing_env_is_fatal envMissingRpc worldA worldB (Or.inl rfl)).1,
    (missing_env_is_fatal envMissingRpc worldA worldB (Or.inl rfl)).2⟩

/-- **C10.** Whenever `main` succeeds, the report pairs the identifier
returned by the submission stage with the explorer URL
`https://solscan.io/tx/{identifier}` (lines 124-137). -/
theorem success_reports_solscan (env : Env) (w : World) (r : Report)
    (h : runMain env w = .ok r) :
    r.solscan = "https://solscan.io/tx/" ++ r.txid := by
  unfold runMain at h
  repeat' split at h
  all_goals first
    | exact Except.noConfusion h
    | (injection h with h'
       subst h'
       rfl)

/-- A world producing the spec's end-to-end success scenario: the fetch
returns the base64 encoding of the serialised `txW` (account list
`[B, A]`, both slots empty), the key decodes to caller `A`, and
submission returns the identifier `"5abc"`. -/
def worldHappy : World :=
  ⟨fun _ => some [1], fun _ => some kpA, fun _ => "buyerA",
    fun _ => base64Encode (serializeTransaction txW), fun _ _ => "5abc"⟩

/-- An environment with all four variables set. -/
def envFull : Env :=
  ⟨some "https://rpc.example", some "key58", some "0.1", some "XYZ"⟩

set_option maxRecDepth 100000 in
set_option maxHeartbeats 1000000 in
/-- Witness for C10: the end-to-end run succeeds and reports
`https://solscan.io/tx/5abc` for identifier `"5abc"`. -/
theorem success_reports_solscan_witness :
    (∃ r, runMain envFull worldHappy = .ok r ∧ r.txid = "5abc" ∧
      r.solscan = "https://solscan.io/tx/" ++ r.txid) :=
  ⟨⟨"5abc", "https://solscan.io/tx/5abc"⟩, by rfl,
    rfl,
    success_reports_solscan envFull worldHappy
      ⟨"5abc", "https://solscan.io/tx/5abc"⟩ (by rfl)⟩

end DegenBot
